import Mathlib

set_option maxHeartbeats 1000000

/-!
Verification development for the AIDM repository.

Each section embeds one component of the source (shallow embedding:
pure Lean functions over explicit state) and proves the properties
claimed for it.  Floating-point weights and volatilities of the Neo4j
store are modelled as rationals; external identifiers as naturals.
-/

namespace AIDM

/-! ### Python string primitives

`str.strip`, `str.startswith` and `str.replace` are modelled over the
character list of the string (the byte-level core `String` operations do
not evaluate inside the kernel).  `replaceFuel` structurally recurses on
a fuel bounded by the length of the subject, which suffices for any
nonempty pattern (every step consumes at least one character); all
patterns replaced by the source are nonempty. -/

def pyStartsWith (s pre : String) : Bool :=
  pre.data.isPrefixOf s.data

def pyStrip (s : String) : String :=
  String.mk (((s.data.dropWhile Char.isWhitespace).reverse.dropWhile
    Char.isWhitespace).reverse)

def replaceFuel (old new : List Char) : Nat → List Char → List Char
  | 0, s => s
  | _ + 1, [] => []
  | fuel + 1, c :: rest =>
    if old.isPrefixOf (c :: rest) then
      new ++ replaceFuel old new fuel ((c :: rest).drop old.length)
    else c :: replaceFuel old new fuel rest

def pyReplace (s old new : String) : String :=
  String.mk (replaceFuel old.data new.data s.data.length s.data)

/-! ## Causal graph store (`aidm_server/graph_db.py`)

The Neo4j-resident state reached through `GraphDB` is modelled as three
lists: `Action` nodes (MERGE-keyed by `action_id`), `PlotPoint` nodes
(MERGE-keyed by `plotpoint_id`) and `IMPACTS` relationships.  Because
every node is created via `MERGE` on its id, node ids are unique and a
Cypher pattern match `(a:Action)-[r:IMPACTS]->(pp:PlotPoint)` resolves an
edge to the unique endpoints found by id lookup (`List.find?`). -/

structure ActionNode where
  action_id : Nat
  session_id : Nat
  severity : Rat
deriving DecidableEq, Repr

structure PlotPoint where
  plotpoint_id : Nat
  volatility : Rat
deriving DecidableEq, Repr

structure ImpactsEdge where
  action_id : Nat
  plotpoint_id : Nat
  weight : Rat
deriving DecidableEq, Repr

structure Graph where
  actions : List ActionNode
  plotpoints : List PlotPoint
  impacts : List ImpactsEdge
deriving DecidableEq, Repr

/-- One row of the Cypher match in `calculate_session_momentum`:
`MATCH (a:Action)-[r:IMPACTS]->(pp:PlotPoint) WHERE a.session_id = $session_id`
produces `r.weight * pp.volatility` when both endpoints resolve and the
source action belongs to the session, and no row otherwise. -/
def matchRow (g : Graph) (s : Nat) (e : ImpactsEdge) : Option Rat :=
  match g.actions.find? (fun a => a.action_id == e.action_id),
        g.plotpoints.find? (fun p => p.plotpoint_id == e.plotpoint_id) with
  | some a, some p => if a.session_id == s then some (e.weight * p.volatility) else none
  | _, _ => none

/-- `GraphDB.calculate_session_momentum` (graph_db.py:319-332): sums
`r.weight * pp.volatility` over the matched rows; an empty match sums to 0
(the `None` aggregate is turned into `0.0` by the Python wrapper). -/
def calculate_session_momentum (g : Graph) (s : Nat) : Rat :=
  (g.impacts.filterMap (matchRow g s)).sum

/-- The session of the source `Action` node of an edge, if that node exists. -/
def sessionOfSource (g : Graph) (e : ImpactsEdge) : Option Nat :=
  (g.actions.find? (fun a => a.action_id == e.action_id)).map (fun a => a.session_id)

/-- Spec-side reading of momentum (written from the words of the spec, to be
compared with `calculate_session_momentum`): restrict the IMPACTS edges to
those whose source Action carries the session id, then total
`edge.weight * target PlotPoint.volatility`. -/
def momentumSpec (g : Graph) (s : Nat) : Rat :=
  ((g.impacts.filter (fun e => sessionOfSource g e == some s)).map
    (fun e =>
      match g.plotpoints.find? (fun p => p.plotpoint_id == e.plotpoint_id) with
      | some p => e.weight * p.volatility
      | none => 0)).sum

theorem momentum_eq_spec_aux (g : Graph) (s : Nat) (l : List ImpactsEdge) :
    (l.filterMap (matchRow g s)).sum
      = ((l.filter (fun e => sessionOfSource g e == some s)).map
          (fun e =>
            match g.plotpoints.find? (fun p => p.plotpoint_id == e.plotpoint_id) with
            | some p => e.weight * p.volatility
            | none => 0)).sum := by
  induction l with
  | nil => rfl
  | cons e t ih =>
    simp only [List.filterMap_cons, List.filter_cons]
    cases ha : g.actions.find? (fun a => a.action_id == e.action_id) with
    | none =>
      have hpred : (sessionOfSource g e == some s) = false := by
        simp [sessionOfSource, ha]
      simp [matchRow, ha, hpred, ih]
    | some a =>
      by_cases hs : a.session_id = s
      · have hpred : (sessionOfSource g e == some s) = true := by
          simp [sessionOfSource, ha, hs]
        cases hp : g.plotpoints.find? (fun p => p.plotpoint_id == e.plotpoint_id) with
        | none => simp [matchRow, ha, hp, hs, hpred, ih]
        | some p => simp [matchRow, ha, hp, hs, hpred, ih]
      · have hpred : (sessionOfSource g e == some s) = false := by
          simp [sessionOfSource, ha, hs]
        cases hp : g.plotpoints.find? (fun p => p.plotpoint_id == e.plotpoint_id) with
        | none => simp [matchRow, ha, hp, hs, hpred, ih]
        | some p => simp [matchRow, ha, hp, hs, hpred, ih]

/-- C4: `momentum(s)` is exactly the sum of `weight * volatility` over
IMPACTS edges whose source Action node carries `session_id = s`, and an
edge whose source action does not belong to `s` (or does not resolve)
contributes nothing: adding it leaves `momentum(s)` unchanged. -/
theorem calculate_session_momentum_spec (g : Graph) (s : Nat) :
    calculate_session_momentum g s = momentumSpec g s ∧
    ∀ e : ImpactsEdge, sessionOfSource g e ≠ some s →
      calculate_session_momentum { g with impacts := e :: g.impacts } s
        = calculate_session_momentum g s := by
  constructor
  · exact momentum_eq_spec_aux g s g.impacts
  · intro e he
    unfold calculate_session_momentum
    simp only [List.filterMap_cons]
    have hrow : matchRow { g with impacts := e :: g.impacts } s e = none := by
      unfold matchRow
      unfold sessionOfSource at he
      cases ha : g.actions.find? (fun a => a.action_id == e.action_id) with
      | none => simp [ha]
      | some a =>
        cases hp : g.plotpoints.find? (fun p => p.plotpoint_id == e.plotpoint_id) with
        | none => simp [ha, hp]
        | some p =>
          simp only [ha, Option.map_some] at he
          simp only [ha, hp]
          have : a.session_id ≠ s := by
            intro h
            exact he (by simp [h])
          simp [this]
    have hfun : matchRow { g with impacts := e :: g.impacts } s = matchRow g s := rfl
    rw [hrow, hfun]

/-- Closed witness for C4 at a concrete two-session graph: the edge of
session 2 contributes nothing to the momentum of session 1. -/
theorem calculate_session_momentum_spec_witness :
    calculate_session_momentum
        { actions := [⟨1, 1, 1⟩, ⟨2, 2, 1⟩],
          plotpoints := [⟨10, (3 : Rat)⟩],
          impacts := [⟨1, 10, (2 : Rat)⟩] } 1
      = momentumSpec
        { actions := [⟨1, 1, 1⟩, ⟨2, 2, 1⟩],
          plotpoints := [⟨10, (3 : Rat)⟩],
          impacts := [⟨1, 10, (2 : Rat)⟩] } 1 ∧
    calculate_session_momentum
        { actions := [⟨1, 1, 1⟩, ⟨2, 2, 1⟩],
          plotpoints := [⟨10, (3 : Rat)⟩],
          impacts := ⟨2, 10, (5 : Rat)⟩ ::
            [⟨1, 10, (2 : Rat)⟩] } 1
      = calculate_session_momentum
        { actions := [⟨1, 1, 1⟩, ⟨2, 2, 1⟩],
          plotpoints := [⟨10, (3 : Rat)⟩],
          impacts := [⟨1, 10, (2 : Rat)⟩] } 1 := by
  refine ⟨(calculate_session_momentum_spec _ 1).1, ?_⟩
  exact (calculate_session_momentum_spec
    { actions := [⟨1, 1, 1⟩, ⟨2, 2, 1⟩],
      plotpoints := [⟨10, (3 : Rat)⟩],
      impacts := [⟨1, 10, (2 : Rat)⟩] } 1).2 ⟨2, 10, (5 : Rat)⟩ (by decide)

/-! ### Edge decay (`GraphDB.decay_relationships`, graph_db.py:349-362)

The method runs the Cypher text
`MATCH ()-[r:IMPACTS]->() SET r.weight = r.weight - $decay WHERE r.weight < 0 DELETE r`.
That statement is not valid Cypher: a `WHERE` subclause may follow only
`MATCH`, `OPTIONAL MATCH` or `WITH`, never `SET`, so Neo4j rejects the
statement with a syntax error before executing any clause, `run_query`
logs and re-raises, and the failed transaction leaves the store
untouched.  The call is therefore modelled as the pair of the unchanged
store and the raised error. -/

def cypherSyntaxError : String := "Neo.ClientError.Statement.SyntaxError"

def decay_relationships (g : Graph) (_rate : Rat) : Graph × Option String :=
  (g, some cypherSyntaxError)

/-- One-edge graph used to evaluate the decay method at the failing input. -/
def decayExample : Graph :=
  { actions := [⟨1, 1, 1⟩], plotpoints := [⟨10, (1 : Rat)⟩],
    impacts := [⟨1, 10, (1 : Rat)⟩] }

/-- C5: `decay_relationships` never performs the claimed update.  Its
Cypher is a syntax error (`WHERE` cannot follow `SET`), so every call
raises and the store is unchanged: no IMPACTS weight is decremented and
no edge is ever deleted.  In particular the weight-1 edge of
`decayExample` survives two decay calls at rate 1 with weight still 1,
instead of being deleted as the claim requires for `w < 2r`. -/
theorem decay_relationships_spec :
    (∀ (g : Graph) (rate : Rat),
      (decay_relationships g rate).2 = some cypherSyntaxError ∧
      (decay_relationships g rate).1 = g) ∧
    (decay_relationships decayExample 1).1.impacts = [⟨1, 10, (1 : Rat)⟩] ∧
    (decay_relationships (decay_relationships decayExample 1).1 1).1.impacts
      = [⟨1, 10, (1 : Rat)⟩] := by
  exact ⟨fun g rate => ⟨rfl, rfl⟩, rfl, rfl⟩

/-! ## Response structurer (`aidm_server/response_controller.py`)

`DMResponseController.structure_response` and its four extraction helpers
(the leading underscore of the Python method names is dropped).  Each
helper is total: the main-narrative extractor returns the whole text and
the three heuristic extractors return empty lists. -/

structure Envelope where
  primary : String
  mechanics : List String
  triggers : List String
  entities : List String
  fallback : String
deriving DecidableEq, Repr

/-- `_extract_main_narrative`: returns all text as the narrative. -/
def extract_main_narrative (text : String) : String := text

/-- `_parse_game_actions`: returns no mechanics hooks. -/
def parse_game_actions (_text : String) : List String := []

/-- `_identify_segment_hooks`: returns no trigger hooks. -/
def identify_segment_hooks (_text : String) : List String := []

/-- `_track_new_objects`: returns no entity mentions. -/
def track_new_objects (_text : String) : List String := []

/-- `DMResponseController.structure_response` (response_controller.py:22-34). -/
def structure_response (raw_llm_output : String) : Envelope :=
  { primary := extract_main_narrative raw_llm_output,
    mechanics := parse_game_actions raw_llm_output,
    triggers := identify_segment_hooks raw_llm_output,
    entities := track_new_objects raw_llm_output,
    fallback := raw_llm_output }

/-- C6 counterexample: on input "abc" the heuristic extractors find no
structure (mechanics, triggers and entities are all empty), yet the
envelope does not populate only the fallback field: the primary field
holds the verbatim input rather than being left empty. -/
theorem structure_response_counterexample :
    ¬ (∀ s : String,
        ((structure_response s).mechanics = [] ∧ (structure_response s).triggers = []
            ∧ (structure_response s).entities = []) →
          ((structure_response s).fallback = s ∧ (structure_response s).primary = "")) := by
  intro h
  have hp := (h "abc" ⟨rfl, rfl, rfl⟩).2
  exact absurd hp (by decide)

/-- C6 (amended): `structure_response` is a total function (it never
raises), and on every input it returns the envelope whose primary and
fallback fields both hold the verbatim input while the mechanics, triggers
and entities fields are empty; in particular, on nonempty input the
primary field is never left empty, so the envelope is never
fallback-only. -/
theorem structure_response_spec (s : String) :
    structure_response s
        = { primary := s, mechanics := [], triggers := [], entities := [], fallback := s } ∧
      (s ≠ "" → (structure_response s).primary ≠ "") := by
  exact ⟨rfl, fun h => h⟩

/-- Closed witness for C6 at the nonempty input "abc". -/
theorem structure_response_spec_witness :
    structure_response "abc"
        = { primary := "abc", mechanics := [], triggers := [], entities := [],
            fallback := "abc" } ∧
      (structure_response "abc").primary ≠ "" := by
  exact ⟨(structure_response_spec "abc").1,
    (structure_response_spec "abc").2 (by decide)⟩

/-! ## Context engine (`aidm_server/context_engine.py`)

`ContextEngine.build_context` assembles one multi-section string (a
Python f-string, modelled as `String.join` over the interleaved literal
and computed pieces).  The leading underscore of the private helper
method names is dropped.  The two-decimal float rendering of the momentum
value is abstracted by `render_momentum`; no claim depends on the digits
rendered, only on which sections the context holds. -/

structure WorldRow where
  wid : Nat
  name : String
  description : String
deriving DecidableEq, Repr

structure CampaignRow where
  cid : Nat
  world_id : Nat
  title : String
deriving DecidableEq, Repr

structure CePlayer where
  pid : Nat
  campaign_id : Nat
  character_name : String
  race : String
  character_class : String
  level : Nat
deriving DecidableEq, Repr

structure CeSession where
  sid : Nat
  campaign_id : Nat
deriving DecidableEq, Repr

structure CeLogEntry where
  session_id : Nat
  message : String
  entry_type : String
deriving DecidableEq, Repr

structure CeDB where
  worlds : List WorldRow
  campaigns : List CampaignRow
  sessions : List CeSession
  players : List CePlayer
  logs : List CeLogEntry
deriving Repr

/-- `ContextEngine._get_world_summary`. -/
def get_world_summary (db : CeDB) (sid : Nat) : String :=
  match db.sessions.find? (fun s => s.sid == sid) with
  | none => "Unknown (no session found)"
  | some s =>
    match db.campaigns.find? (fun c => c.cid == s.campaign_id) with
    | none => "Unknown (no campaign found)"
    | some c =>
      match db.worlds.find? (fun w => w.wid == c.world_id) with
      | none => "No world data found."
      | some w => w.name ++ " - " ++ w.description

/-- Two-decimal rendering of the momentum float; abstracted, see above. -/
def render_momentum (q : Rat) : String := toString q

/-- `ContextEngine._get_session_momentum`: formats the graph-store
momentum of the session. -/
def get_session_momentum (g : Graph) (sid : Nat) : String :=
  render_momentum (calculate_session_momentum g sid)

/-- `ContextEngine._get_campaign_timeline`. -/
def get_campaign_timeline : String := "Timeline not implemented."

/-- `ContextEngine._get_character_dossiers`. -/
def get_character_dossiers (db : CeDB) (sid : Nat) : String :=
  match db.sessions.find? (fun s => s.sid == sid) with
  | none => "No session."
  | some s =>
    String.intercalate "\n"
      ((db.players.filter (fun p => p.campaign_id == s.campaign_id)).map
        (fun p => "Player " ++ toString p.pid ++ " - " ++ p.character_name
          ++ ", Race: " ++ p.race ++ ", Class: " ++ p.character_class
          ++ ", Level: " ++ toString p.level))

/-- `ContextEngine._get_significant_events`: the five most recent log
entries of the session, oldest of the five first. -/
def get_significant_events (db : CeDB) (sid : Nat) : String :=
  String.intercalate "\n"
    ((((db.logs.filter (fun e => e.session_id == sid)).reverse.take 5).reverse).map
      (fun e => "[" ++ e.entry_type.toUpper ++ "] " ++ e.message))

/-- `ContextEngine._get_open_plot_hooks`. -/
def get_open_plot_hooks : String := "Open hooks not implemented."

/-- `ContextEngine._get_scene_description`. -/
def get_scene_description : String := "Scene details not implemented."

/-- `ContextEngine._get_narrative_style_prefs` (context_engine.py:126-127):
a constant string, independent of the session and of its momentum. -/
def get_narrative_style_prefs : String :=
  "Keep responses in a classical fantasy tone with moderate detail."

/-- The style directive that `build_context` embeds: the call
`self._get_narrative_style_prefs()` reads nothing from the database, the
graph or the session. -/
def style_directive (_db : CeDB) (_g : Graph) (_sid : Nat) : String :=
  get_narrative_style_prefs

/-- The interleaved literal and computed pieces of the f-string returned
by `ContextEngine.build_context` (context_engine.py:57-67). -/
def contextSections (db : CeDB) (g : Graph) (sid : Nat) : List String :=
  ["\nWorld State: ", get_world_summary db sid,
   "\nMomentum: ", get_session_momentum g sid,
   "\nCampaign Progress: ", get_campaign_timeline,
   "\nActive Characters: ", get_character_dossiers db sid,
   "\nRecent Developments: ", get_significant_events db sid,
   "\nOutstanding Threads: ", get_open_plot_hooks,
   "\nCurrent Scene: ", get_scene_description,
   "\nStyle Guide: ", style_directive db g sid,
   "\n"]

/-- `ContextEngine.build_context`. -/
def build_context (db : CeDB) (g : Graph) (sid : Nat) : String :=
  String.join (contextSections db g sid)

/-- Graph with momentum 10 for session 1 (above the claimed 7.5 band). -/
def highMomentumGraph : Graph :=
  { actions := [⟨1, 1, 1⟩], plotpoints := [⟨10, (10 : Rat)⟩],
    impacts := [⟨1, 10, (1 : Rat)⟩] }

/-- Graph with momentum 0 for session 1 (below the claimed 3 band). -/
def lowMomentumGraph : Graph :=
  { actions := [], plotpoints := [], impacts := [] }

/-- Empty relational database for the context-engine examples. -/
def emptyCeDB : CeDB :=
  { worlds := [], campaigns := [], sessions := [], players := [], logs := [] }

/-- C8 counterexample: the claim makes the style directive a function of
three momentum bands, so a session in the high band (momentum 10 > 7.5)
must receive a different directive from a session in the low band
(momentum 0 < 3).  In the code the directive is one constant string: the
two directives coincide. -/
theorem build_context_counterexample :
    ¬ (∀ (db1 db2 : CeDB) (g1 g2 : Graph) (sid1 sid2 : Nat),
        (15 : Rat) / 2 < calculate_session_momentum g1 sid1 →
        calculate_session_momentum g2 sid2 < 3 →
        style_directive db1 g1 sid1 ≠ style_directive db2 g2 sid2) := by
  intro h
  have hhi : (15 : Rat) / 2 < calculate_session_momentum highMomentumGraph 1 := by
    norm_num [calculate_session_momentum, matchRow, highMomentumGraph,
      List.filterMap, List.find?]
  have hlo : calculate_session_momentum lowMomentumGraph 1 < 3 := by
    norm_num [calculate_session_momentum, lowMomentumGraph]
  exact h emptyCeDB emptyCeDB highMomentumGraph lowMomentumGraph 1 1 hhi hlo rfl

/-- C8 (amended): the assembled context contains a style directive, but it
is the fixed string of `_get_narrative_style_prefs`, identical across all
sessions and independent of momentum; `build_context` is the join of its
section pieces and embeds that constant directive.  (Momentum itself does
appear in the context, as the separate rendered `Momentum:` section.) -/
theorem build_context_style_constant (db db2 : CeDB) (g g2 : Graph) (sid sid2 : Nat) :
    style_directive db g sid = style_directive db2 g2 sid2 ∧
    style_directive db g sid
        = "Keep responses in a classical fantasy tone with moderate detail." ∧
    style_directive db g sid ∈ contextSections db g sid ∧
    get_session_momentum g sid ∈ contextSections db g sid ∧
    build_context db g sid = String.join (contextSections db g sid) := by
  refine ⟨rfl, rfl, ?_, ?_, rfl⟩
  · simp [contextSections]
  · simp [contextSections]

/-! ## Session end (`aidm_server/blueprints/sessions.py:36-70`)

`end_game_session` freezes a session: it builds a recap over the full log
(a non-streamed generation call, modelled by the `recap` parameter —
`none` when `query_gpt` raises) and overwrites `state_snapshot` with a
fresh JSON object.  The snapshot is modelled as an association list of
fields; `SnapVal.o` covers nested objects such as a stored
`pending_roll`.  The sibling implementation `ai_dm/server.py:269-293`
performs the same full replacement via `json.dumps`. -/

inductive SnapVal where
  | s (v : String)
  | o (fields : List (String × String))
deriving DecidableEq, Repr

structure EndSessionRow where
  sid : Nat
  campaign_id : Nat
  session_log : Option String
  state_snapshot : Option (List (String × SnapVal))
deriving DecidableEq, Repr

inductive EndResult where
  | notFound
  | failed
  | ended (recap : String) (db : List EndSessionRow)
deriving DecidableEq, Repr

/-- `end_game_session`: 404 when the session is unknown; when the recap
call raises (`recap = none`) the error path leaves every row unchanged;
otherwise the matched row's snapshot is replaced by the two-field object
holding only `recap` and `ended_at`. -/
def end_game_session (db : List EndSessionRow) (sid : Nat) (recap : Option String)
    (ts : String) : EndResult :=
  match db.find? (fun s => s.sid == sid) with
  | none => EndResult.notFound
  | some _ =>
    match recap with
    | none => EndResult.failed
    | some rc =>
      let snap := some [("recap", SnapVal.s rc), ("ended_at", SnapVal.s ts)]
      EndResult.ended rc
        (db.map (fun s =>
          if s.sid == sid then { s with state_snapshot := snap } else s))

/-- C10: a successful `end_game_session` replaces the whole
`state_snapshot` of the session: afterwards the snapshot object holds
exactly the keys `recap` and `ended_at`, whatever fields (such as an open
`pending_roll`) the previous snapshot held. -/
theorem end_game_session_spec (db : List EndSessionRow) (sid : Nat) (rc ts : String)
    (h : (db.find? (fun s => s.sid == sid)).isSome) :
    ∃ db2, end_game_session db sid (some rc) ts = EndResult.ended rc db2 ∧
      ∀ s2 ∈ db2, s2.sid = sid →
        s2.state_snapshot = some [("recap", SnapVal.s rc), ("ended_at", SnapVal.s ts)] ∧
        s2.state_snapshot.map (fun l => l.map Prod.fst) = some ["recap", "ended_at"] := by
  rcases Option.isSome_iff_exists.1 h with ⟨s0, hs0⟩
  refine ⟨_, by rw [end_game_session, hs0], ?_⟩
  intro s2 hs2 hsid
  rcases List.mem_map.1 hs2 with ⟨s1, _, rfl⟩
  by_cases hcase : s1.sid = sid
  · simp [hcase]
  · have : (s1.sid == sid) = false := by simpa using hcase
    rw [this] at hsid ⊢
    simp only [if_neg, Bool.false_eq_true, not_false_eq_true] at hsid ⊢
    exact absurd hsid hcase

/-- Closed witness for C10: a session whose snapshot holds an open
`pending_roll` object; after ending, the snapshot holds only `recap` and
`ended_at`. -/
theorem end_game_session_spec_witness :
    ∃ db2,
      end_game_session
          [{ sid := 1, campaign_id := 1, session_log := some "log",
             state_snapshot := some [("pending_roll",
               SnapVal.o [("original_action", "attack the goblin")])] }]
          1 (some "the recap") "2026-10-12" = EndResult.ended "the recap" db2 ∧
      ∀ s2 ∈ db2, s2.sid = 1 →
        s2.state_snapshot
            = some [("recap", SnapVal.s "the recap"), ("ended_at", SnapVal.s "2026-10-12")] ∧
        s2.state_snapshot.map (fun l => l.map Prod.fst) = some ["recap", "ended_at"] := by
  exact end_game_session_spec _ 1 "the recap" "2026-10-12" (by decide)

/-! ## Realtime coordinator (`aidm_server/blueprints/socketio_events.py`)

Shallow embedding of the socket handlers.  The relational rows carry the
fields the handlers read; the Neo4j side effects of the message handler
are applied to a `GraphState` (the momentum `Graph` of section 1 plus the
Player nodes, PERFORMED edges and cascade ACTIVATES links).  Emitted
socket events are collected in order in a list; an uncaught Python
exception is a `crashed` outcome carrying the exception name, with the
events emitted before the crash.  The streamed generation boundary is a
parameter: the list of chunk texts the generator yields.  `json.loads`
of a structured final chunk is the parameter `jp` (a JSON object decoder,
returning the object as an association list, `none` on a parse error). -/

namespace Sio

structure SioPlayer where
  pid : Nat
  campaign_id : Nat
  name : String
  character_name : String
deriving DecidableEq, Repr

structure SioAction where
  player_id : Nat
  session_id : Nat
  action_text : String
deriving DecidableEq, Repr

structure SioLogEntry where
  session_id : Nat
  message : String
  entry_type : String
  structured_output : Option (List (String × String))
deriving DecidableEq, Repr

structure SioSegment where
  segment_id : Nat
  campaign_id : Nat
  title : String
  is_triggered : Bool
deriving DecidableEq, Repr

structure SioDB where
  players : List SioPlayer
  actions : List SioAction
  logs : List SioLogEntry
  segments : List SioSegment
deriving DecidableEq, Repr

structure GraphState where
  core : Graph
  gplayers : List Nat
  performed : List (Nat × Nat)
  activates : List Nat
deriving DecidableEq, Repr

inductive SioEvent where
  | errorEvt (message : String)
  | newMessage (message : String) (speaker : String)
  | playerJoined (pid : Nat)
  | activePlayersEvt (pids : List Nat)
  | playerLeft (pid : Nat)
  | segmentTriggered (segment_id : Nat) (title : String)
  | dmResponseStart
  | dmChunk (chunk : String)
  | dmStructuredResponse (structured : List (String × String))
  | dmResponseEnd
  | sessionLogUpdate
deriving DecidableEq, Repr

inductive Outcome where
  | ok
  | crashed (error : String)
deriving DecidableEq, Repr

structure Result where
  events : List SioEvent
  db : SioDB
  graph : GraphState
  outcome : Outcome
deriving DecidableEq, Repr

/-- Python truthiness of an optional integer field (`data.get(f)`):
missing and `0` are both falsy. -/
def truthyNat : Option Nat → Bool
  | some n => !(n == 0)
  | none => false

/-- Python truthiness of an optional string field: missing and the empty
string are both falsy. -/
def truthyStr : Option String → Bool
  | some s => !(s == "")
  | none => false

structure MsgData where
  session_id : Option Nat
  campaign_id : Option Nat
  world_id : Option Nat
  message : Option String
  player_id : Option Nat
deriving Repr

/-- `GraphDB.create_action_node`: MERGE the Action node keyed by
`action_id`, then SET its properties (the text and timestamp properties
are not read by any momentum query and are not tracked). -/
def create_action_node (gs : GraphState) (aid sid : Nat) (_text : String)
    (sev : Rat) : GraphState :=
  let g := gs.core
  let actions2 :=
    if g.actions.any (fun a => a.action_id == aid) then
      g.actions.map (fun a => if a.action_id == aid then ⟨aid, sid, sev⟩ else a)
    else g.actions ++ [⟨aid, sid, sev⟩]
  { gs with core := { g with actions := actions2 } }

/-- The inline `MERGE (p:Player ...)` query of the message handler. -/
def merge_player_node (gs : GraphState) (pid : Nat) : GraphState :=
  if gs.gplayers.contains pid then gs
  else { gs with gplayers := gs.gplayers ++ [pid] }

/-- `GraphDB.attach_player_to_action`: MATCH both endpoints, MERGE the
PERFORMED edge (no row, hence no edge, when either endpoint is absent). -/
def attach_player_to_action (gs : GraphState) (pid aid : Nat) : GraphState :=
  if gs.gplayers.contains pid && gs.core.actions.any (fun a => a.action_id == aid)
      && !(gs.performed.contains (pid, aid)) then
    { gs with performed := gs.performed ++ [(pid, aid)] }
  else gs

/-- Aggregated incoming weighted momentum of one plot point, as grouped
by the `WITH pp, sum(...)` clause of `cascade_triggers`. -/
def plotpoint_momentum (g : Graph) (sid ppid : Nat) : Rat :=
  (g.impacts.filterMap
    (fun e => if e.plotpoint_id == ppid then matchRow g sid e else none)).sum

/-- `GraphDB.cascade_triggers`: MERGE an ACTIVATES link onto the
AutoTriggeredEvent node for every plot point above the threshold. -/
def cascade_triggers (gs : GraphState) (sid : Nat) (threshold : Rat) : GraphState :=
  let acts := gs.core.plotpoints.foldl
    (fun acc pp =>
      if threshold < plotpoint_momentum gs.core sid pp.plotpoint_id then
        (if acc.contains pp.plotpoint_id then acc else acc ++ [pp.plotpoint_id])
      else acc)
    gs.activates
  { gs with activates := acts }

/-- The placeholder trigger test of the message handler: always false. -/
def check_segment_trigger (_seg : SioSegment) (_cid : Nat) : Bool := false

/-- The untriggered-segments pass of the message handler: for each
matching segment whose condition fires, mark it, broadcast the trigger
and append a dm log entry. -/
def segmentPass (db : SioDB) (cid sid : Nat) : SioDB × List SioEvent :=
  let untriggered := db.segments.filter
    (fun s => s.campaign_id == cid && !s.is_triggered)
  untriggered.foldl
    (fun acc seg =>
      if check_segment_trigger seg cid then
        let dbAcc := acc.1
        let segs2 := dbAcc.segments.map
          (fun s => if s.segment_id == seg.segment_id then { s with is_triggered := true } else s)
        let logs2 := dbAcc.logs ++ [⟨sid, "**Segment Triggered**: " ++ seg.title, "dm", none⟩]
        ({ dbAcc with segments := segs2, logs := logs2 },
          acc.2 ++ [SioEvent.segmentTriggered seg.segment_id seg.title])
      else acc)
    (db, [])

/-- `aidm_server/llm.py` `query_dm_function_stream` (lines 165-194): for
each upstream chunk with nonempty text the generator yields the stripped
text; it never yields a chunk of any other shape.  (The exception branch,
which yields one error string, is not part of the successful stream.) -/
def query_dm_function_stream (raws : List String) : List String :=
  raws.filterMap (fun t => if t == "" then none else some (pyStrip t))

/-- The sentinel prefix the message handler looks for in a chunk. -/
def sentinel : String := "<END_OF_STREAM:"

/-- `chunk.replace("<END_OF_STREAM:", "").replace(">", "")`. -/
def stripSentinel (c : String) : String :=
  pyReplace (pyReplace c "<END_OF_STREAM:" "") ">" ""

structure LoopState where
  events : List SioEvent
  entries : List SioLogEntry
  text : String
deriving DecidableEq, Repr

/-- One iteration of the message handler's streaming loop
(socketio_events.py:224-255): a sentinel chunk is decoded and logged as
the single dm entry; any other chunk is accumulated and relayed. -/
def streamStep (jp : String → Option (List (String × String))) (sid : Nat)
    (st : LoopState) (c : String) : LoopState :=
  if pyStartsWith c sentinel then
    match jp (stripSentinel c) with
    | some obj =>
      let evs2 := st.events ++ [SioEvent.dmStructuredResponse obj]
      let ents2 := st.entries ++ [⟨sid, "DM: " ++ ((obj.lookup "primary").getD ""), "dm", some obj⟩]
      { st with events := evs2, entries := ents2 }
    | none =>
      { st with events := st.events ++ [SioEvent.errorEvt "Error parsing structured response"] }
  else
    { st with events := st.events ++ [SioEvent.dmChunk c], text := st.text ++ c }

def streamLoop (jp : String → Option (List (String × String))) (sid : Nat)
    (chunks : List String) (st : LoopState) : LoopState :=
  chunks.foldl (streamStep jp sid) st

/-- `handle_send_message` (socketio_events.py:96-260).  `connected` is
whether `get_graph_db()` returned a live store; `chunks` is what the
streaming generator yields; `jp` decodes JSON objects.  Note the order in
the source: `player.name` is dereferenced before the `if not player`
test, so an unknown player id raises AttributeError with nothing emitted
and nothing written. -/
def handle_send_message (db : SioDB) (gs : GraphState) (connected : Bool)
    (jp : String → Option (List (String × String)))
    (d : MsgData) (chunks : List String) : Result :=
  if !(truthyNat d.session_id && truthyNat d.campaign_id && truthyNat d.world_id
      && truthyStr d.message && truthyNat d.player_id) then
    { events := [SioEvent.errorEvt "Missing required data"], db := db, graph := gs,
      outcome := Outcome.ok }
  else
    match d.session_id, d.campaign_id, d.message, d.player_id with
    | some sid, some cid, some msg, some pid =>
      match db.players.find? (fun p => p.pid == pid) with
      | none =>
        { events := [], db := db, graph := gs, outcome := Outcome.crashed "AttributeError" }
      | some p =>
        if !(p.campaign_id == cid) then
          { events := [SioEvent.errorEvt "Player not part of this campaign"], db := db,
            graph := gs, outcome := Outcome.ok }
        else
          let aid := db.actions.length + 1
          let db1 := { db with actions := db.actions ++ [(⟨pid, sid, msg⟩ : SioAction)] }
          let gs1 :=
            if connected then
              attach_player_to_action
                (merge_player_node (create_action_node gs aid sid msg 1) pid) pid aid
            else gs
          let db2 := { db1 with logs := db1.logs
            ++ [(⟨sid, p.character_name ++ ": " ++ msg, "player", none⟩ : SioLogEntry)] }
          let seg := segmentPass db2 cid sid
          let gs2 :=
            if connected then
              (if (5 : Rat) < calculate_session_momentum gs1.core sid then
                cascade_triggers gs1 sid 5
              else gs1)
            else gs1
          let stFin := streamLoop jp sid chunks { events := [], entries := [], text := "" }
          let db3 := { seg.1 with logs := seg.1.logs ++ stFin.entries }
          let evs := [SioEvent.newMessage msg p.character_name] ++ seg.2
            ++ [SioEvent.dmResponseStart] ++ stFin.events
            ++ [SioEvent.dmResponseEnd, SioEvent.sessionLogUpdate]
          { events := evs, db := db3, graph := gs2, outcome := Outcome.ok }
    | _, _, _, _ =>
      { events := [SioEvent.errorEvt "Missing required data"], db := db, graph := gs,
        outcome := Outcome.ok }

/-- `get_player_data` (socketio_events.py:23-31): the player row, if any. -/
def get_player_data (db : SioDB) (pid : Nat) : Option SioPlayer :=
  db.players.find? (fun p => p.pid == pid)

/-- The module-global `active_players` map: session id to the ids present
(dictionary keys are the `player_id` values given to `join_session`). -/
structure JoinState where
  active : List (Nat × List Nat)
deriving DecidableEq, Repr

def membersOf (st : JoinState) (sid : Nat) : List Nat :=
  ((st.active.find? (fun kv => kv.1 == sid)).map Prod.snd).getD []

/-- `if session_id not in active_players: active_players[session_id] = ...`. -/
def ensureSession (st : JoinState) (sid : Nat) : JoinState :=
  if st.active.any (fun kv => kv.1 == sid) then st
  else { active := st.active ++ [(sid, [])] }

/-- `active_players[session_id][player_id] = player_data`. -/
def addMember (st : JoinState) (sid pid : Nat) : JoinState :=
  { active := st.active.map (fun kv => if kv.1 == sid then (kv.1, kv.2 ++ [pid]) else kv) }

/-- `handle_join_session` (socketio_events.py:34-63).  `if not session_id`
catches both a missing id and 0; a player id already present in the
session skips every broadcast; an unknown player id adds no membership
and broadcasts only the plain-text message. -/
def handle_join_session (db : SioDB) (st : JoinState)
    (session_id player_id : Option Nat) : JoinState × List SioEvent :=
  match session_id with
  | none => (st, [SioEvent.errorEvt "Session ID is required to join."])
  | some sid =>
    if sid == 0 then (st, [SioEvent.errorEvt "Session ID is required to join."])
    else
      let st1 := ensureSession st sid
      match player_id with
      | some pid =>
        if (membersOf st1 sid).contains pid then (st1, [])
        else
          match get_player_data db pid with
          | some p =>
            let st2 := addMember st1 sid pid
            (st2, [SioEvent.playerJoined p.pid,
              SioEvent.activePlayersEvt (membersOf st2 sid),
              SioEvent.newMessage ("A new player joined session " ++ toString sid ++ "!") ""])
          | none =>
            (st1, [SioEvent.newMessage ("A new player joined session " ++ toString sid ++ "!") ""])
      | none =>
        (st1, [SioEvent.newMessage ("A new player joined session " ++ toString sid ++ "!") ""])

/-- `n` consecutive `join_session` calls with the same payload, threading
the `active_players` state and concatenating the emitted events. -/
def joinIter (db : SioDB) (session_id player_id : Option Nat) :
    Nat → JoinState → JoinState × List SioEvent
  | 0, st => (st, [])
  | n + 1, st =>
    let r1 := handle_join_session db st session_id player_id
    let r2 := joinIter db session_id player_id n r1.1
    (r2.1, r1.2 ++ r2.2)

def isPlayerJoined : SioEvent → Bool
  | SioEvent.playerJoined _ => true
  | _ => false

theorem foldl_const {α β : Type} (l : List β) (init : α) :
    l.foldl (fun acc _ => acc) init = init := by
  induction l generalizing init with
  | nil => rfl
  | cons b t ih => simp [List.foldl_cons, ih init]

/-- With the placeholder trigger test the segment pass changes nothing
and broadcasts nothing. -/
theorem segmentPass_eq (db : SioDB) (cid sid : Nat) :
    segmentPass db cid sid = (db, []) := by
  unfold segmentPass
  simp only [check_segment_trigger, Bool.false_eq_true, if_false]
  exact foldl_const _ _

theorem streamLoop_events (jp : String → Option (List (String × String))) (sid : Nat)
    (chunks : List String) :
    ∀ st : LoopState, (∀ c ∈ chunks, pyStartsWith c sentinel = false) →
      (streamLoop jp sid chunks st).events = st.events ++ chunks.map SioEvent.dmChunk := by
  induction chunks with
  | nil => intro st _; simp [streamLoop]
  | cons c t ih =>
    intro st h
    have hc : pyStartsWith c sentinel = false := h c (List.mem_cons_self c t)
    have ht : ∀ x ∈ t, pyStartsWith x sentinel = false :=
      fun x hx => h x (List.mem_cons_of_mem c hx)
    have hstep : streamStep jp sid st c
        = { st with events := st.events ++ [SioEvent.dmChunk c], text := st.text ++ c } := by
      simp [streamStep, hc]
    have ih2 := ih ({ st with events := st.events ++ [SioEvent.dmChunk c], text := st.text ++ c }) ht
    simp only [streamLoop, List.foldl_cons] at ih2 ⊢
    rw [hstep, ih2]
    simp

theorem streamLoop_entries (jp : String → Option (List (String × String))) (sid : Nat)
    (chunks : List String) :
    ∀ st : LoopState, (∀ c ∈ chunks, pyStartsWith c sentinel = false) →
      (streamLoop jp sid chunks st).entries = st.entries := by
  induction chunks with
  | nil => intro st _; simp [streamLoop]
  | cons c t ih =>
    intro st h
    have hc : pyStartsWith c sentinel = false := h c (List.mem_cons_self c t)
    have ht : ∀ x ∈ t, pyStartsWith x sentinel = false :=
      fun x hx => h x (List.mem_cons_of_mem c hx)
    have hstep : streamStep jp sid st c
        = { st with events := st.events ++ [SioEvent.dmChunk c], text := st.text ++ c } := by
      simp [streamStep, hc]
    have ih2 := ih ({ st with events := st.events ++ [SioEvent.dmChunk c], text := st.text ++ c }) ht
    simp only [streamLoop, List.foldl_cons] at ih2 ⊢
    rw [hstep, ih2]

/-- C3: a completed generation cycle over a stream of ordinary text
chunks (none carrying the structured sentinel — and
`query_dm_function_stream` never yields the sentinel) relays every chunk
in order and closes the cycle, but persists NO dm-tagged SessionLogEntry
at all: the dm-filtered log is unchanged.  The claimed single combined
entry is only written in the dead sentinel branch. -/
theorem handle_send_message_no_dm_entry
    (db : SioDB) (gs : GraphState) (connected : Bool)
    (jp : String → Option (List (String × String)))
    (sid cid wid pid : Nat) (msg : String) (chunks : List String) (p : SioPlayer)
    (hp : db.players.find? (fun q => q.pid == pid) = some p)
    (hc : p.campaign_id = cid)
    (hsid : sid ≠ 0) (hcid : cid ≠ 0) (hwid : wid ≠ 0) (hpid : pid ≠ 0) (hmsg : msg ≠ "")
    (hch : ∀ c ∈ chunks, pyStartsWith c sentinel = false) :
    (handle_send_message db gs connected jp
        ⟨some sid, some cid, some wid, some msg, some pid⟩ chunks).outcome = Outcome.ok ∧
    (handle_send_message db gs connected jp
        ⟨some sid, some cid, some wid, some msg, some pid⟩ chunks).db.logs.filter
          (fun e => e.entry_type == "dm")
        = db.logs.filter (fun e => e.entry_type == "dm") ∧
    (handle_send_message db gs connected jp
        ⟨some sid, some cid, some wid, some msg, some pid⟩ chunks).events
        = [SioEvent.newMessage msg p.character_name, SioEvent.dmResponseStart]
            ++ chunks.map SioEvent.dmChunk
            ++ [SioEvent.dmResponseEnd, SioEvent.sessionLogUpdate] := by
  have t1 : truthyNat (some sid) = true := by simp [truthyNat, hsid]
  have t2 : truthyNat (some cid) = true := by simp [truthyNat, hcid]
  have t3 : truthyNat (some wid) = true := by simp [truthyNat, hwid]
  have t4 : truthyStr (some msg) = true := by simp [truthyStr, hmsg]
  have t5 : truthyNat (some pid) = true := by simp [truthyNat, hpid]
  have hcc : (p.campaign_id == cid) = true := by simp [hc]
  have hev := streamLoop_events jp sid chunks { events := [], entries := [], text := "" } hch
  have hen := streamLoop_entries jp sid chunks { events := [], entries := [], text := "" } hch
  have hplayer : (("player" : String) == "dm") = false := by decide
  refine ⟨?_, ?_, ?_⟩ <;>
    simp [handle_send_message, t1, t2, t3, t4, t5, hp, hcc, segmentPass_eq, hev, hen,
      List.filter_append, hplayer]

/-- Closed witness for C3: a fresh "look around" action with a two-chunk
stream from the generator; the dm-filtered log stays empty while both
chunks are relayed. -/
theorem handle_send_message_no_dm_entry_witness :
    (handle_send_message ⟨[⟨7, 1, "Dana", "Thorin"⟩], [], [], []⟩
        ⟨⟨[], [], []⟩, [], [], []⟩ false (fun _ => none)
        ⟨some 1, some 1, some 1, some "look around", some 7⟩
        (query_dm_function_stream ["The room is dark. ", "", " You see a door."])).outcome
      = Outcome.ok ∧
    (handle_send_message ⟨[⟨7, 1, "Dana", "Thorin"⟩], [], [], []⟩
        ⟨⟨[], [], []⟩, [], [], []⟩ false (fun _ => none)
        ⟨some 1, some 1, some 1, some "look around", some 7⟩
        (query_dm_function_stream ["The room is dark. ", "", " You see a door."])).db.logs.filter
          (fun e => e.entry_type == "dm")
        = ([] : List SioLogEntry).filter (fun e => e.entry_type == "dm") ∧
    (handle_send_message ⟨[⟨7, 1, "Dana", "Thorin"⟩], [], [], []⟩
        ⟨⟨[], [], []⟩, [], [], []⟩ false (fun _ => none)
        ⟨some 1, some 1, some 1, some "look around", some 7⟩
        (query_dm_function_stream ["The room is dark. ", "", " You see a door."])).events
        = [SioEvent.newMessage "look around" "Thorin", SioEvent.dmResponseStart]
            ++ (query_dm_function_stream
                ["The room is dark. ", "", " You see a door."]).map SioEvent.dmChunk
            ++ [SioEvent.dmResponseEnd, SioEvent.sessionLogUpdate] :=
  handle_send_message_no_dm_entry ⟨[⟨7, 1, "Dana", "Thorin"⟩], [], [], []⟩
    ⟨⟨[], [], []⟩, [], [], []⟩ false (fun _ => none) 1 1 1 7 "look around"
    (query_dm_function_stream ["The room is dark. ", "", " You see a door."])
    ⟨7, 1, "Dana", "Thorin"⟩ (by decide) (by decide) (by decide) (by decide) (by decide)
    (by decide) (by decide) (by decide)

/-- C7: on a well-formed payload whose player id matches no player, the
handler dereferences `player.name` before the `if not player` test and
crashes with AttributeError: no error event reaches the caller, though
nothing is written (first conjunct).  A player that exists but belongs to
a different campaign is rejected synchronously with an error event and no
mutation (second conjunct). -/
theorem handle_send_message_invalid_player :
    (handle_send_message ⟨[], [], [], []⟩ ⟨⟨[], [], []⟩, [], [], []⟩ true (fun _ => none)
        ⟨some 1, some 1, some 1, some "look around", some 42⟩ [])
      = { events := [], db := ⟨[], [], [], []⟩, graph := ⟨⟨[], [], []⟩, [], [], []⟩,
          outcome := Outcome.crashed "AttributeError" } ∧
    (handle_send_message ⟨[⟨7, 1, "Dana", "Thorin"⟩], [], [], []⟩
        ⟨⟨[], [], []⟩, [], [], []⟩ true (fun _ => none)
        ⟨some 1, some 2, some 1, some "look around", some 7⟩ [])
      = { events := [SioEvent.errorEvt "Player not part of this campaign"],
          db := ⟨[⟨7, 1, "Dana", "Thorin"⟩], [], [], []⟩,
          graph := ⟨⟨[], [], []⟩, [], [], []⟩, outcome := Outcome.ok } := by
  exact ⟨by decide, by decide⟩

theorem ensure_of_member (st : JoinState) (sid pid : Nat)
    (h : pid ∈ membersOf st sid) : ensureSession st sid = st := by
  unfold membersOf at h
  cases hf : st.active.find? (fun kv => kv.1 == sid) with
  | none => rw [hf] at h; simp at h
  | some kv =>
    have hmem := List.mem_of_find?_eq_some hf
    have hpred := List.find?_some hf
    have hany : st.active.any (fun kv => kv.1 == sid) = true :=
      List.any_eq_true.2 ⟨kv, hmem, hpred⟩
    unfold ensureSession
    rw [hany]
    rfl

theorem bool_eq_false {b : Bool} (h : ¬ b = true) : b = false := by
  cases b
  · rfl
  · exact absurd rfl h

theorem beq_false_of_ne {a b : Nat} (h : a ≠ b) : (a == b) = false := by
  cases hb : a == b
  · rfl
  · exact absurd (by simpa using hb) h

theorem ensure_has_key (st : JoinState) (sid : Nat) :
    (ensureSession st sid).active.any (fun kv => kv.1 == sid) = true := by
  unfold ensureSession
  by_cases h : st.active.any (fun kv => kv.1 == sid) = true
  · rw [if_pos h]
    exact h
  · rw [if_neg h]
    simp [List.any_append]

theorem find?_addMember (pid sid : Nat) :
    ∀ l : List (Nat × List Nat), l.any (fun kv => kv.1 == sid) = true →
      ((l.map (fun kv => if kv.1 == sid then (kv.1, kv.2 ++ [pid]) else kv)).find?
          (fun kv => kv.1 == sid))
        = (l.find? (fun kv => kv.1 == sid)).map (fun kv => (kv.1, kv.2 ++ [pid])) := by
  intro l
  induction l with
  | nil => intro h; simp at h
  | cons kv t ih =>
    intro h
    by_cases hk : (kv.1 == sid) = true
    · rw [List.map_cons, if_pos hk]
      have h1 : ((kv.1, kv.2 ++ [pid])
            :: (t.map (fun kv => if kv.1 == sid then (kv.1, kv.2 ++ [pid]) else kv))).find?
            (fun kv => kv.1 == sid) = some (kv.1, kv.2 ++ [pid]) := by
        simp [List.find?_cons, hk]
      have h2 : (kv :: t).find? (fun kv => kv.1 == sid) = some kv := by
        simp [List.find?_cons, hk]
      rw [h1, h2]
      rfl
    · have hk2 : (kv.1 == sid) = false := bool_eq_false hk
      have h2 : t.any (fun kv => kv.1 == sid) = true := by
        rw [List.any_cons, hk2] at h
        simpa using h
      rw [List.map_cons, if_neg hk]
      have h3 : ∀ tl : List (Nat × List Nat),
          (kv :: tl).find? (fun kv => kv.1 == sid) = tl.find? (fun kv => kv.1 == sid) := by
        intro tl
        simp [List.find?_cons, hk2]
      rw [h3, h3]
      exact ih h2

theorem membersOf_addMember_self (st : JoinState) (sid pid : Nat)
    (hkey : st.active.any (fun kv => kv.1 == sid) = true) :
    membersOf (addMember st sid pid) sid = membersOf st sid ++ [pid] := by
  show (((st.active.map
      (fun kv => if kv.1 == sid then (kv.1, kv.2 ++ [pid]) else kv)).find?
        (fun kv => kv.1 == sid)).map Prod.snd).getD []
    = (((st.active.find? (fun kv => kv.1 == sid)).map Prod.snd).getD []) ++ [pid]
  rw [find?_addMember pid sid st.active hkey]
  have hsome : (st.active.find? (fun kv => kv.1 == sid)).isSome := by
    rw [List.find?_isSome]
    rcases List.any_eq_true.1 hkey with ⟨kv, hmem, hp⟩
    exact ⟨kv, hmem, hp⟩
  rcases Option.isSome_iff_exists.1 hsome with ⟨kv, hkv⟩
  rw [hkv]
  rfl

theorem contains_of_mem {l : List Nat} {a : Nat} (h : a ∈ l) : l.contains a = true := by
  exact List.elem_eq_true_of_mem h

theorem join_step_member (db : SioDB) (st : JoinState) (sid pid : Nat)
    (h : pid ∈ membersOf st sid) :
    (handle_join_session db st (some sid) (some pid)).1 = st ∧
    ((handle_join_session db st (some sid) (some pid)).2.filter isPlayerJoined) = [] := by
  by_cases h0 : sid = 0
  · subst h0
    simp [handle_join_session, isPlayerJoined]
  · have hsid0 : (sid == 0) = false := beq_false_of_ne h0
    have hens := ensure_of_member st sid pid h
    have hcont : (membersOf st sid).contains pid = true := contains_of_mem h
    have hmain : handle_join_session db st (some sid) (some pid) = (st, []) := by
      simp only [handle_join_session, hsid0, Bool.false_eq_true, if_false, hens, hcont,
        if_true]
    rw [hmain]
    exact ⟨rfl, rfl⟩

theorem join_step_analysis (db : SioDB) (st : JoinState) (s? p? : Option Nat) :
    ((handle_join_session db st s? p?).2.filter isPlayerJoined) = [] ∨
    (∃ sid pid, s? = some sid ∧ p? = some pid ∧
      ((handle_join_session db st s? p?).2.filter isPlayerJoined).length = 1 ∧
      pid ∈ membersOf (handle_join_session db st s? p?).1 sid) := by
  cases s? with
  | none => left; simp [handle_join_session, isPlayerJoined]
  | some sid =>
    by_cases h0 : sid = 0
    · left
      subst h0
      simp [handle_join_session, isPlayerJoined]
    · have hsid0 : (sid == 0) = false := beq_false_of_ne h0
      cases p? with
      | none => left; simp [handle_join_session, hsid0, isPlayerJoined]
      | some pid =>
        by_cases hmem : (membersOf (ensureSession st sid) sid).contains pid = true
        · left
          have hmain : handle_join_session db st (some sid) (some pid)
              = (ensureSession st sid, []) := by
            simp only [handle_join_session, hsid0, Bool.false_eq_true, if_false, hmem,
              if_true]
          rw [hmain]
          rfl
        · have hmem2 : (membersOf (ensureSession st sid) sid).contains pid = false :=
            bool_eq_false hmem
          cases hfind : get_player_data db pid with
          | none =>
            left
            have hmain : handle_join_session db st (some sid) (some pid)
                = (ensureSession st sid,
                   [SioEvent.newMessage
                     ("A new player joined session " ++ toString sid ++ "!") ""]) := by
              simp only [handle_join_session, hsid0, Bool.false_eq_true, if_false, hmem2,
                hfind]
            rw [hmain]
            simp [isPlayerJoined]
          | some p =>
            right
            have hmain : handle_join_session db st (some sid) (some pid)
                = (addMember (ensureSession st sid) sid pid,
                   [SioEvent.playerJoined p.pid,
                    SioEvent.activePlayersEvt
                      (membersOf (addMember (ensureSession st sid) sid pid) sid),
                    SioEvent.newMessage
                      ("A new player joined session " ++ toString sid ++ "!") ""]) := by
              simp only [handle_join_session, hsid0, Bool.false_eq_true, if_false, hmem2,
                hfind]
            refine ⟨sid, pid, rfl, rfl, ?_, ?_⟩
            · rw [hmain]
              simp [isPlayerJoined]
            · have hkey := ensure_has_key st sid
              have hadd := membersOf_addMember_self (ensureSession st sid) sid pid hkey
              rw [hmain]
              show pid ∈ membersOf (addMember (ensureSession st sid) sid pid) sid
              rw [hadd]
              exact List.mem_append_right _ (List.mem_singleton.2 rfl)

theorem joinIter_member_zero (db : SioDB) (sid pid : Nat) :
    ∀ (n : Nat) (st : JoinState), pid ∈ membersOf st sid →
      ((joinIter db (some sid) (some pid) n st).2.filter isPlayerJoined) = [] := by
  intro n
  induction n with
  | zero => intro st _; simp [joinIter]
  | succ n ih =>
    intro st h
    have hstep := join_step_member db st sid pid h
    simp only [joinIter, List.filter_append]
    rw [hstep.2]
    have h2 : pid ∈ membersOf (handle_join_session db st (some sid) (some pid)).1 sid := by
      rw [hstep.1]; exact h
    rw [ih _ h2]
    rfl

/-- C9: over any number of consecutive `join_session` calls with the same
session id and player id, at most one `player_joined` broadcast is
emitted in total; a re-join by an already-present player broadcasts
nothing. -/
theorem handle_join_session_at_most_one_broadcast (db : SioDB) (s? p? : Option Nat)
    (n : Nat) (st : JoinState) :
    ((joinIter db s? p? n st).2.filter isPlayerJoined).length ≤ 1 := by
  induction n generalizing st with
  | zero => simp [joinIter]
  | succ n ih =>
    simp only [joinIter, List.filter_append, List.length_append]
    rcases join_step_analysis db st s? p? with h | ⟨sid, pid, hs, hp, hlen, hmem⟩
    · rw [h]
      simpa using ih _
    · subst hs; subst hp
      rw [hlen, joinIter_member_zero db sid pid n _ hmem]
      simp

end Sio

/-! ## Legacy coordinator (`ai_dm/server.py` and `ai_dm/llm.py`)

The sibling implementation carrying the roll-request machinery claimed by
the spec: `handle_send_message` (server.py:439-587) with its pre-generation
roll heuristic `determine_roll_type` (llm.py:117-119) and the
`pending_roll` object inside `Session.state_snapshot`.  The session log
here is one text column, not SessionLogEntry rows.  Uncaught Python
exceptions are `crashed` outcomes; exceptions raised inside the handler's
`try` block are caught, emit an error event, and still reach the
`finally` that emits `dm_response_end`. -/

namespace AiDm

structure AiPlayer where
  player_id : Nat
  campaign_id : Nat
  character_name : String
deriving DecidableEq, Repr

/-- The `pending_roll` object of the snapshot (`state.get('pending_roll', ...)`). -/
structure PendingRollObj where
  original_action : Option String
deriving DecidableEq, Repr

/-- The parsed JSON of `Session.state_snapshot`; `none` models a NULL column
(`json.loads(state_snapshot or '\x7b\x7d')` then yields the empty object). -/
structure Snapshot where
  pending_roll : Option PendingRollObj
deriving DecidableEq, Repr

structure AiSession where
  session_id : Nat
  campaign_id : Nat
  session_log : Option String
  state_snapshot : Option Snapshot
deriving DecidableEq, Repr

structure AiAction where
  player_id : Nat
  session_id : Nat
  action_text : String
deriving DecidableEq, Repr

structure AiDB where
  players : List AiPlayer
  sessions : List AiSession
  actions : List AiAction
deriving DecidableEq, Repr

inductive AiEvent where
  | errorEvt (message : String)
  | newMessage (message : String) (speaker : String)
  | rollRequest
  | dmResponseStart
  | dmChunk (chunk : String)
  | dmResponseEnd
  | sessionLogUpdate (log : String)
deriving DecidableEq, Repr

structure AiResult where
  events : List AiEvent
  db : AiDB
  outcome : Sio.Outcome
deriving DecidableEq, Repr

structure AiMsgData where
  session_id : Option Nat
  campaign_id : Option Nat
  world_id : Option Nat
  message : Option String
  player_id : Option Nat
  roll_result : Option Nat
deriving Repr

/-- `determine_roll_type` (ai_dm/llm.py:117-119): the simplified helper
returns None for every action text — "no longer enforces scripted roll
responses". -/
def determine_roll_type (_action_text : String) : Option String := none

/-- `json.loads(state_snapshot or ...)` followed by
`state.get('pending_roll', ...).get('original_action')`. -/
def pending_original_action (snap : Option Snapshot) : Option String :=
  match snap with
  | none => none
  | some st =>
    match st.pending_roll with
    | none => none
    | some pr => pr.original_action

/-- `chunk.replace("DM:", "").replace("DM: DM:", "").strip()`. -/
def cleanChunk (c : String) : String :=
  pyStrip (pyReplace (pyReplace c "DM:" "") "DM: DM:" "")

/-- The streaming relay loop of the fresh-action path (server.py:559-567):
skip falsy chunks, clean, accumulate, and emit each cleaned chunk. -/
def aiStreamLoop : List String → List AiEvent × String
  | [] => ([], "")
  | c :: rest =>
    if c == "" then aiStreamLoop rest
    else
      let cl := cleanChunk c
      let r := aiStreamLoop rest
      (AiEvent.dmChunk cl :: r.1, cl ++ r.2)

/-- Append an interaction to the session's `session_log` column and
return the updated store together with the new full log (the payload of
the `session_log_update` emit). -/
def appendLog (db : AiDB) (sid : Nat) (entry : String) : AiDB × String :=
  let sess2 := db.sessions.map (fun s =>
    if s.session_id == sid then { s with session_log := some ((s.session_log.getD "") ++ entry) }
    else s)
  ({ db with sessions := sess2 },
    ((db.sessions.find? (fun s => s.session_id == sid)).map
      (fun s => (s.session_log.getD "") ++ entry)).getD "")

/-- `handle_send_message` (ai_dm/server.py:439-587).  Key source facts the
model mirrors: the PlayerAction row is committed before the session
lookup; with a truthy `roll_result` and a stored `pending_roll.original_action`
the branch evaluates `build_dm_context(world_id, ...)` where `world_id` is
a local assigned only later, raising UnboundLocalError before any further
emit; in the pre-generation roll branch the `emit('roll_request', ...)`
payload reads the undefined name `suggested_roll`, so the NameError is
caught by the surrounding `except` (error event) and `finally` still
emits `dm_response_end`; no path ever writes a `pending_roll` into the
snapshot. -/
def handle_send_message (db : AiDB) (d : AiMsgData) (chunks : List String) : AiResult :=
  if !(Sio.truthyNat d.session_id && Sio.truthyNat d.campaign_id && Sio.truthyNat d.world_id
      && Sio.truthyStr d.message && Sio.truthyNat d.player_id) then
    { events := [AiEvent.errorEvt "Missing required data"], db := db, outcome := Sio.Outcome.ok }
  else
    match d.session_id, d.campaign_id, d.message, d.player_id with
    | some sid, some cid, some msg, some pid =>
      match db.players.find? (fun p => p.player_id == pid) with
      | none =>
        { events := [AiEvent.errorEvt "Invalid player ID"], db := db, outcome := Sio.Outcome.ok }
      | some p =>
        if !(p.campaign_id == cid) then
          { events := [AiEvent.errorEvt "Player not part of this campaign"], db := db,
            outcome := Sio.Outcome.ok }
        else
          let db1 := { db with actions := db.actions ++ [(⟨pid, sid, msg⟩ : AiAction)] }
          match db1.sessions.find? (fun s => s.session_id == sid) with
          | none =>
            { events := [AiEvent.errorEvt "Session not found"], db := db1,
              outcome := Sio.Outcome.ok }
          | some sobj =>
            let evs0 := [AiEvent.newMessage msg p.character_name]
            if Sio.truthyNat d.roll_result
                && (pending_original_action sobj.state_snapshot).isSome then
              { events := evs0, db := db1, outcome := Sio.Outcome.crashed "UnboundLocalError" }
            else
              match determine_roll_type msg with
              | some _ =>
                let entry := "\n" ++ p.character_name ++ ": " ++ msg
                  ++ "\nDM: This action requires a roll before proceeding.\n"
                let r := appendLog db1 sid entry
                { events := evs0 ++ [AiEvent.dmResponseStart,
                    AiEvent.errorEvt "Error generating response: NameError",
                    AiEvent.dmResponseEnd],
                  db := r.1, outcome := Sio.Outcome.ok }
              | none =>
                let loop := aiStreamLoop chunks
                if loop.2 == "" then
                  { events := evs0 ++ [AiEvent.dmResponseStart] ++ loop.1
                      ++ [AiEvent.dmResponseEnd],
                    db := db1, outcome := Sio.Outcome.ok }
                else
                  let entry := "\n" ++ p.character_name ++ ": " ++ msg
                    ++ "\nDM: " ++ loop.2 ++ "\n"
                  let r := appendLog db1 sid entry
                  { events := evs0 ++ [AiEvent.dmResponseStart] ++ loop.1
                      ++ [AiEvent.sessionLogUpdate r.2, AiEvent.dmResponseEnd],
                    db := r.1, outcome := Sio.Outcome.ok }
    | _, _, _, _ =>
      { events := [AiEvent.errorEvt "Missing required data"], db := db,
        outcome := Sio.Outcome.ok }

def isErrorAi : AiEvent → Bool
  | AiEvent.errorEvt _ => true
  | _ => false

/-- C1: the pre-generation roll heuristic classifies NO action as needing
a roll — `determine_roll_type` is a constant None, even for the spec's
"attack the goblin" — so the handler never broadcasts roll-requested,
never stores a PendingRoll into the state snapshot (no code path writes
one), and the generation cycle runs to `dm_response_end`. -/
theorem handle_send_message_roll_heuristic_dead :
    determine_roll_type "attack the goblin" = none ∧
    AiEvent.rollRequest ∉
      (handle_send_message
        { players := [⟨1, 1, "Thorin"⟩], sessions := [⟨1, 1, none, none⟩], actions := [] }
        ⟨some 1, some 1, some 1, some "attack the goblin", some 1, none⟩
        ["You miss."]).events ∧
    ((handle_send_message
        { players := [⟨1, 1, "Thorin"⟩], sessions := [⟨1, 1, none, none⟩], actions := [] }
        ⟨some 1, some 1, some 1, some "attack the goblin", some 1, none⟩
        ["You miss."]).db.sessions.map
          (fun s => pending_original_action s.state_snapshot)) = [none] ∧
    AiEvent.dmResponseEnd ∈
      (handle_send_message
        { players := [⟨1, 1, "Thorin"⟩], sessions := [⟨1, 1, none, none⟩], actions := [] }
        ⟨some 1, some 1, some 1, some "attack the goblin", some 1, none⟩
        ["You miss."]).events := by
  refine ⟨rfl, by decide, by decide, by decide⟩

/-- C2 counterexample: a session with an open PendingRoll
(original_action "attack the goblin") receives submit_action("look around")
with no roll outcome.  The handler does not reject it: no error event is
emitted, a full generation cycle runs (start and end), the fresh action is
recorded, and the PendingRoll is still open afterwards — falsifying the
claimed ConcurrencyConflict rejection at this input. -/
theorem handle_send_message_pending_counterexample :
    (handle_send_message
        { players := [⟨1, 1, "Thorin"⟩],
          sessions := [⟨1, 1, some "", some ⟨some ⟨some "attack the goblin"⟩⟩⟩],
          actions := [] }
        ⟨some 1, some 1, some 1, some "look around", some 1, none⟩
        ["The goblin watches you."]).events.filter isErrorAi = [] ∧
    AiEvent.dmResponseStart ∈
      (handle_send_message
        { players := [⟨1, 1, "Thorin"⟩],
          sessions := [⟨1, 1, some "", some ⟨some ⟨some "attack the goblin"⟩⟩⟩],
          actions := [] }
        ⟨some 1, some 1, some 1, some "look around", some 1, none⟩
        ["The goblin watches you."]).events ∧
    AiEvent.dmResponseEnd ∈
      (handle_send_message
        { players := [⟨1, 1, "Thorin"⟩],
          sessions := [⟨1, 1, some "", some ⟨some ⟨some "attack the goblin"⟩⟩⟩],
          actions := [] }
        ⟨some 1, some 1, some 1, some "look around", some 1, none⟩
        ["The goblin watches you."]).events ∧
    (handle_send_message
        { players := [⟨1, 1, "Thorin"⟩],
          sessions := [⟨1, 1, some "", some ⟨some ⟨some "attack the goblin"⟩⟩⟩],
          actions := [] }
        ⟨some 1, some 1, some 1, some "look around", some 1, none⟩
        ["The goblin watches you."]).db.actions = [⟨1, 1, "look around"⟩] ∧
    ((handle_send_message
        { players := [⟨1, 1, "Thorin"⟩],
          sessions := [⟨1, 1, some "", some ⟨some ⟨some "attack the goblin"⟩⟩⟩],
          actions := [] }
        ⟨some 1, some 1, some 1, some "look around", some 1, none⟩
        ["The goblin watches you."]).db.sessions.map
          (fun s => pending_original_action s.state_snapshot))
      = [some "attack the goblin"] := by
  refine ⟨by decide, by decide, by decide, by decide, by decide⟩

theorem aiStreamLoop_events (chunks : List String) :
    (aiStreamLoop chunks).1
      = (chunks.filter (fun c => !(c == ""))).map
          (fun c => AiEvent.dmChunk (cleanChunk c)) := by
  induction chunks with
  | nil => rfl
  | cons c t ih =>
    by_cases hc : (c == "") = true
    · simp [aiStreamLoop, hc, ih]
    · have hc2 : (c == "") = false := Sio.bool_eq_false hc
      simp [aiStreamLoop, hc2, ih]

theorem filter_isErrorAi_chunks (l : List String) :
    ((l.map (fun c => AiEvent.dmChunk (cleanChunk c))).filter isErrorAi) = [] := by
  induction l with
  | nil => rfl
  | cons c t ih => simp [isErrorAi, ih]

theorem find?_log_update_snapshot (sid : Nat) (entry : String) :
    ∀ l : List AiSession,
      (((l.map (fun s => if s.session_id == sid
            then { s with session_log := some ((s.session_log.getD "") ++ entry) }
            else s)).find? (fun s => s.session_id == sid)).map (fun s => s.state_snapshot))
        = ((l.find? (fun s => s.session_id == sid)).map (fun s => s.state_snapshot)) := by
  intro l
  induction l with
  | nil => rfl
  | cons s t ih =>
    by_cases hk : (s.session_id == sid) = true
    · rw [List.map_cons, if_pos hk]
      have h1 : (({ s with session_log := some ((s.session_log.getD "") ++ entry) } : AiSession)
            :: t.map (fun s => if s.session_id == sid
              then { s with session_log := some ((s.session_log.getD "") ++ entry) }
              else s)).find? (fun s => s.session_id == sid)
          = some { s with session_log := some ((s.session_log.getD "") ++ entry) } := by
        simp [List.find?_cons, hk]
      have h2 : (s :: t).find? (fun s => s.session_id == sid) = some s := by
        simp [List.find?_cons, hk]
      rw [h1, h2]
      rfl
    · have hk2 : (s.session_id == sid) = false := Sio.bool_eq_false hk
      rw [List.map_cons, if_neg hk]
      have h1 : (s :: t.map (fun s => if s.session_id == sid
            then { s with session_log := some ((s.session_log.getD "") ++ entry) }
            else s)).find? (fun s => s.session_id == sid)
          = (t.map (fun s => if s.session_id == sid
              then { s with session_log := some ((s.session_log.getD "") ++ entry) }
              else s)).find? (fun s => s.session_id == sid) := by
        simp [List.find?_cons, hk2]
      have h2 : (s :: t).find? (fun s => s.session_id == sid)
          = t.find? (fun s => s.session_id == sid) := by
        simp [List.find?_cons, hk2]
      rw [h1, h2, ih]

/-- C2 (amended): while a PendingRoll is open, a submit_action carrying no
roll outcome is NOT rejected: the handler emits no error event, records
the fresh PlayerAction, runs a full generation cycle
(dm_response_start through dm_response_end), and leaves the PendingRoll
open in the snapshot.  No ConcurrencyConflict path exists. -/
theorem handle_send_message_pending_processed
    (db : AiDB) (sid cid wid pid : Nat) (msg : String) (chunks : List String)
    (p : AiPlayer) (sobj : AiSession) (t : String)
    (hp : db.players.find? (fun q => q.player_id == pid) = some p)
    (hcamp : p.campaign_id = cid)
    (hs : db.sessions.find? (fun s => s.session_id == sid) = some sobj)
    (hpend : pending_original_action sobj.state_snapshot = some t)
    (hsid : sid ≠ 0) (hcid : cid ≠ 0) (hwid : wid ≠ 0) (hpid : pid ≠ 0) (hmsg : msg ≠ "") :
    (handle_send_message db ⟨some sid, some cid, some wid, some msg, some pid, none⟩
        chunks).outcome = Sio.Outcome.ok ∧
    (handle_send_message db ⟨some sid, some cid, some wid, some msg, some pid, none⟩
        chunks).events.filter isErrorAi = [] ∧
    AiEvent.dmResponseStart ∈
      (handle_send_message db ⟨some sid, some cid, some wid, some msg, some pid, none⟩
        chunks).events ∧
    AiEvent.dmResponseEnd ∈
      (handle_send_message db ⟨some sid, some cid, some wid, some msg, some pid, none⟩
        chunks).events ∧
    (handle_send_message db ⟨some sid, some cid, some wid, some msg, some pid, none⟩
        chunks).db.actions = db.actions ++ [⟨pid, sid, msg⟩] ∧
    (((handle_send_message db ⟨some sid, some cid, some wid, some msg, some pid, none⟩
        chunks).db.sessions.find? (fun s => s.session_id == sid)).map
          (fun s => pending_original_action s.state_snapshot)) = some (some t) := by
  have t1 : Sio.truthyNat (some sid) = true := by simp [Sio.truthyNat, hsid]
  have t2 : Sio.truthyNat (some cid) = true := by simp [Sio.truthyNat, hcid]
  have t3 : Sio.truthyNat (some wid) = true := by simp [Sio.truthyNat, hwid]
  have t4 : Sio.truthyStr (some msg) = true := by simp [Sio.truthyStr, hmsg]
  have t5 : Sio.truthyNat (some pid) = true := by simp [Sio.truthyNat, hpid]
  have hcamp2 : (p.campaign_id == cid) = true := by simp [hcamp]
  have herr1 : isErrorAi (AiEvent.newMessage msg p.character_name) = false := rfl
  by_cases hloop : ((aiStreamLoop chunks).2 == "") = true
  · refine ⟨?_, ?_, ?_, ?_, ?_, ?_⟩ <;>
      simp [handle_send_message, t1, t2, t3, t4, t5, hp, hcamp2, hs, hpend,
        determine_roll_type, Sio.truthyNat, hloop, aiStreamLoop_events,
        filter_isErrorAi_chunks, List.filter_append, isErrorAi,
        hsid, hcid, hwid, hpid, hmsg]
  · have hloop2 : ((aiStreamLoop chunks).2 == "") = false := Sio.bool_eq_false hloop
    have hsnap := find?_log_update_snapshot sid
      ("\n" ++ p.character_name ++ ": " ++ msg ++ "\nDM: " ++ (aiStreamLoop chunks).2 ++ "\n")
      db.sessions
    rw [hs] at hsnap
    refine ⟨?_, ?_, ?_, ?_, ?_, ?_⟩ <;>
      simp [handle_send_message, t1, t2, t3, t4, t5, hp, hcamp2, hs, hpend,
        determine_roll_type, Sio.truthyNat, hloop2, aiStreamLoop_events,
        filter_isErrorAi_chunks, List.filter_append, isErrorAi, appendLog,
        hsid, hcid, hwid, hpid, hmsg]
    · refine ⟨sobj, ?_, ?_⟩
      · convert hs using 2
        funext s
        by_cases hcs : s.session_id = sid
        · simp [hcs]
        · simp [hcs]
      · by_cases h2 : sobj.session_id = sid
        · simp [h2, hpend]
        · simp [h2, hpend]

/-- Closed witness for the amended C2 at a one-player store with an open
PendingRoll for "attack the goblin" and a fresh "look around" submission. -/
theorem handle_send_message_pending_processed_witness :
    (handle_send_message
        { players := [⟨1, 1, "Thorin"⟩],
          sessions := [⟨1, 1, some "", some ⟨some ⟨some "attack the goblin"⟩⟩⟩],
          actions := [] }
        ⟨some 1, some 1, some 1, some "look around", some 1, none⟩
        ["The goblin watches you."]).outcome = Sio.Outcome.ok ∧
    (handle_send_message
        { players := [⟨1, 1, "Thorin"⟩],
          sessions := [⟨1, 1, some "", some ⟨some ⟨some "attack the goblin"⟩⟩⟩],
          actions := [] }
        ⟨some 1, some 1, some 1, some "look around", some 1, none⟩
        ["The goblin watches you."]).events.filter isErrorAi = [] ∧
    AiEvent.dmResponseStart ∈
      (handle_send_message
        { players := [⟨1, 1, "Thorin"⟩],
          sessions := [⟨1, 1, some "", some ⟨some ⟨some "attack the goblin"⟩⟩⟩],
          actions := [] }
        ⟨some 1, some 1, some 1, some "look around", some 1, none⟩
        ["The goblin watches you."]).events ∧
    AiEvent.dmResponseEnd ∈
      (handle_send_message
        { players := [⟨1, 1, "Thorin"⟩],
          sessions := [⟨1, 1, some "", some ⟨some ⟨some "attack the goblin"⟩⟩⟩],
          actions := [] }
        ⟨some 1, some 1, some 1, some "look around", some 1, none⟩
        ["The goblin watches you."]).events ∧
    (handle_send_message
        { players := [⟨1, 1, "Thorin"⟩],
          sessions := [⟨1, 1, some "", some ⟨some ⟨some "attack the goblin"⟩⟩⟩],
          actions := [] }
        ⟨some 1, some 1, some 1, some "look around", some 1, none⟩
        ["The goblin watches you."]).db.actions = [] ++ [⟨1, 1, "look around"⟩] ∧
    (((handle_send_message
        { players := [⟨1, 1, "Thorin"⟩],
          sessions := [⟨1, 1, some "", some ⟨some ⟨some "attack the goblin"⟩⟩⟩],
          actions := [] }
        ⟨some 1, some 1, some 1, some "look around", some 1, none⟩
        ["The goblin watches you."]).db.sessions.find? (fun s => s.session_id == 1)).map
          (fun s => pending_original_action s.state_snapshot))
      = some (some "attack the goblin") :=
  handle_send_message_pending_processed
    { players := [⟨1, 1, "Thorin"⟩],
      sessions := [⟨1, 1, some "", some ⟨some ⟨some "attack the goblin"⟩⟩⟩],
      actions := [] }
    1 1 1 1 "look around" ["The goblin watches you."]
    ⟨1, 1, "Thorin"⟩ ⟨1, 1, some "", some ⟨some ⟨some "attack the goblin"⟩⟩⟩
    "attack the goblin"
    (by decide) rfl (by decide) rfl
    (by decide) (by decide) (by decide) (by decide) (by decide)

end AiDm

end AIDM
